import Mathlib

/-!
Shallow embedding of the flight-delay feature pipeline
(`src/data/utils.py`, `src/data/dataset.py`, `src/inference/__init__.py`).

Timestamp strings in the format `YYYY-MM-DD HH:MM:SS` are modelled in their
parsed form: a `Timestamp` record of calendar fields, mirroring the result of
Python's `datetime.strptime(s, "%Y-%m-%d %H:%M:%S")`.  Python `datetime`
comparisons within a single year are comparisons of the field tuple
`(month, day, hour, minute, second)`; they are modelled here by comparing the
injective numeric key `dtKey` (each field occupies two decimal digits, which
is faithful because every field of a parseable timestamp is below 100).
-/

structure Timestamp where
  year : Nat
  month : Nat
  day : Nat
  hour : Nat
  minute : Nat
  second : Nat
deriving DecidableEq, Repr

/-- Numeric key realising Python `datetime` comparison for valid field values:
lexicographic on (year, month, day, hour, minute, second). -/
def dtKey (t : Timestamp) : Nat :=
  ((((t.year * 100 + t.month) * 100 + t.day) * 100 + t.hour) * 100 + t.minute) * 100
    + t.second

/-- From `src/data/utils.py`, `is_high_season`.  The four range bounds are the
datetimes produced by `strptime("15-Dec", "%d-%b").replace(year=year_date)`
etc.: midnight instants of the named days in the timestamp's own year.  The
comparisons are the source's `>=`/`<=` on datetimes. -/
def is_high_season (t : Timestamp) : Nat :=
  let range1_min := dtKey ⟨t.year, 12, 15, 0, 0, 0⟩
  let range1_max := dtKey ⟨t.year, 12, 31, 0, 0, 0⟩
  let range2_min := dtKey ⟨t.year, 1, 1, 0, 0, 0⟩
  let range2_max := dtKey ⟨t.year, 3, 3, 0, 0, 0⟩
  let range3_min := dtKey ⟨t.year, 7, 15, 0, 0, 0⟩
  let range3_max := dtKey ⟨t.year, 7, 31, 0, 0, 0⟩
  let range4_min := dtKey ⟨t.year, 9, 11, 0, 0, 0⟩
  let range4_max := dtKey ⟨t.year, 9, 30, 0, 0, 0⟩
  if (range1_min ≤ dtKey t ∧ dtKey t ≤ range1_max)
      ∨ (range2_min ≤ dtKey t ∧ dtKey t ≤ range2_max)
      ∨ (range3_min ≤ dtKey t ∧ dtKey t ≤ range3_max)
      ∨ (range4_min ≤ dtKey t ∧ dtKey t ≤ range4_max) then
    1
  else
    0

/-- Python `time` comparison for valid field values: seconds since midnight. -/
def timeKey (h mi s : Nat) : Nat := (h * 60 + mi) * 60 + s

/-- From `src/data/utils.py`, `get_day_phase`.  The source compares the
`time()` part of the parsed datetime strictly against `05:00`, `11:59`,
`12:00`, `18:59`, `19:00`, `23:59`, `00:00`, `4:59` (all with seconds 0) and
falls through to Python `None` when no branch matches. -/
def get_day_phase (t : Timestamp) : Option String :=
  let k := timeKey t.hour t.minute t.second
  if timeKey 5 0 0 < k ∧ k < timeKey 11 59 0 then some "morning"
  else if timeKey 12 0 0 < k ∧ k < timeKey 18 59 0 then some "evening"
  else if (timeKey 19 0 0 < k ∧ k < timeKey 23 59 0)
      ∨ (timeKey 0 0 0 < k ∧ k < timeKey 4 59 0) then some "night"
  else none

/-- Days since 1970-01-01 of a proleptic-Gregorian civil date, modelling the
date arithmetic of Python `datetime` (used for subtraction, `strftime("%A")`
and `.weekday()`).  Standard civil-from-days algorithm; all intermediate
divisions act on nonnegative values for the years appearing in parseable
timestamps. -/
def daysFromCivil (y m d : Nat) : Int :=
  let y2 : Int := if m ≤ 2 then (y : Int) - 1 else (y : Int)
  let era : Int := (if 0 ≤ y2 then y2 else y2 - 399) / 400
  let yoe : Int := y2 - era * 400
  let mp : Int := ((m : Int) + 9) % 12
  let doy : Int := (153 * mp + 2) / 5 + (d : Int) - 1
  let doe : Int := yoe * 365 + yoe / 4 - yoe / 100 + doy
  era * 146097 + doe - 719468

/-- Python `date.weekday()` numbering: Monday = 0 ... Sunday = 6.
1970-01-01 (day 0) was a Thursday. -/
def dayOfWeek (y m d : Nat) : Nat := ((daysFromCivil y m d + 3) % 7).toNat

/-- The English full weekday names produced by `strftime("%A")` under the
default (C) locale, indexed by `dayOfWeek`. -/
def day_names : List String :=
  ["Monday", "Tuesday", "Wednesday", "Thursday", "Friday", "Saturday", "Sunday"]

/-- From `src/data/utils.py`, `get_day_data`: returns
`[date.strftime("%A"), str(date.month), date.day]`. -/
def get_day_data (t : Timestamp) : String × String × Nat :=
  (day_names.getD (dayOfWeek t.year t.month t.day) "", toString t.month, t.day)

/-- Seconds since epoch of a timestamp; `a - b` in seconds models Python
`(datetime_a - datetime_b).total_seconds()` (exact, the operands are whole
seconds). -/
def toEpochSec (t : Timestamp) : Int :=
  daysFromCivil t.year t.month t.day * 86400
    + (t.hour : Int) * 3600 + (t.minute : Int) * 60 + (t.second : Int)

/-- From `src/data/utils.py`, `flight_delay_minutes`:
`((fecha_o - fecha_i).total_seconds()) / 60` with `fecha_i` the scheduled
("Fecha-I") and `fecha_o` the actual ("Fecha-O") departure. -/
def flight_delay_minutes (fecha_i fecha_o : Timestamp) : ℚ :=
  ((toEpochSec fecha_o - toEpochSec fecha_i : Int) : ℚ) / 60

/-- From `src/data/dataset.py`, `load_data` line
`data["is_delayed"] = np.where(data["delay_minutes"] > threshold, 1, 0)`. -/
def is_delayed (fecha_i fecha_o : Timestamp) (threshold : ℚ) : Nat :=
  if threshold < flight_delay_minutes fecha_i fecha_o then 1 else 0

/-!
### Concurrency counter (`aggregate_concurrent_flights_number`)

The sorted `"Fecha-I"` column is modelled as a list of epoch seconds
(`List Int`); subtracting two parsed datetimes and taking
`abs(...).total_seconds()` is `(a - b).natAbs` on epoch seconds.
-/

/-- The inner `for j in range(starting_index, len(dates_list))` loop of
`aggregate_concurrent_flights_number`, for a fixed outer index `i`.  `lo` is
the mutable `starting_index`, `cnt` the mutable `concurrent_flights`.  The
result is the count appended for `i` together with the value of
`starting_index` after the scan (in the source, exactly one count is appended
per outer iteration: on `break`, or when `j` reaches the last index). -/
def scanFrom (ts : List Int) (w : Nat) (i : Nat) (j lo cnt : Nat) : Nat × Nat :=
  if h : j < ts.length then
    if (ts.getD i 0 - ts.getD j 0).natAbs ≤ w * 3600 then
      scanFrom ts w i (j + 1) lo (cnt + 1)
    else if i < j then
      (cnt, lo)
    else
      scanFrom ts w i (j + 1) j cnt
  else
    (cnt, lo)
termination_by ts.length - j

/-- The outer `for i in range(len(dates_list))` loop: one appended count per
index, threading `starting_index` between iterations. -/
def aggLoop (ts : List Int) (w : Nat) (i lo : Nat) : List Nat :=
  if i < ts.length then
    let p := scanFrom ts w i lo lo 0
    p.1 :: aggLoop ts w (i + 1) p.2
  else
    []
termination_by ts.length - i

/-- From `src/data/utils.py`, `aggregate_concurrent_flights_number`: parse the
`"Fecha-I"` column, sort it ascending (`data.sort_values(by="Fecha-I")`), and
run the two-pointer scan with `starting_index = 0`.  The result is the
`"Conc-Flights"` column, aligned to the sorted timeline.  (The counts depend
only on the sorted sequence of values, so the choice of sorting algorithm is
immaterial; `insertionSort` is used here.) -/
def aggregate_concurrent_flights_number (ts : List Int) (w : Nat) : List Nat :=
  aggLoop (List.insertionSort (· ≤ ·) ts) w 0 0

/-- The reference count of the claim for sorted timeline `ts`, position `i`:
the number of indices `j` (including `i` itself) whose absolute time
difference from the `i`-th timestamp is at most `w*3600` seconds. -/
def cBelow (ts : List Int) (w i j : Nat) : Nat :=
  ((Finset.range j).filter
    (fun k => (ts.getD i 0 - ts.getD k 0).natAbs ≤ w * 3600)).card

/-!
### One-hot encoder (`sklearn.preprocessing.OneHotEncoder`)

Modelled per column: fitting collects the sorted distinct category values of
the column (sklearn's `categories_`), transforming a value produces its
indicator vector over the fitted categories.  The repository constructs the
encoder with `handle_unknown="ignore"`, so transforming an unseen value
yields the all-zero vector instead of raising.  Fitting on a batch with zero
rows raises `ValueError` in sklearn (`check_array` requires at least one
sample); this is the only failure mode relevant to the claims.
-/

/-- Fitted categories of one column: sorted distinct values seen during fit. -/
def fit_column (vals : List String) : List String :=
  List.insertionSort (· ≤ ·) vals.dedup

/-- Transform one value of one column against the fitted categories
(`handle_unknown="ignore"`): the indicator vector, all-zero when unseen. -/
def transform_column (cats : List String) (v : String) : List Nat :=
  cats.map (fun c => if c = v then 1 else 0)

/-- Fit a `OneHotEncoder` on `rows` (each row lists the values of the
`ncols` categorical columns): per-column fitted categories. -/
def ohe_fit (rows : List (List String)) (ncols : Nat) : List (List String) :=
  (List.range ncols).map (fun c => fit_column (rows.map (fun r => r.getD c "")))

/-- Transform one row with a fitted encoder: concatenated per-column
indicator vectors. -/
def ohe_transform (cats : List (List String)) (row : List String) : List Nat :=
  ((cats.zip row).map (fun p => transform_column p.1 p.2)).flatten

/-- `encoder.fit_transform` (`src/data/dataset.py` line 95): fails on a batch
with zero rows (sklearn `ValueError: 0 sample(s)`), otherwise fits and
transforms every row. -/
def ohe_fit_transform (rows : List (List String)) (ncols : Nat) :
    Except String (List (List String) × List (List Nat)) :=
  if rows.length = 0 then
    Except.error "ValueError: found array with 0 samples"
  else
    Except.ok (ohe_fit rows ncols, rows.map (ohe_transform (ohe_fit rows ncols)))

/-!
### `build_features_and_label` (`src/data/dataset.py`)

A training record is modelled post-selection: its label value, the values of
the configured categorical columns, and the values of the configured
numerical columns.
-/

structure LRec where
  label : Nat
  cats : List String
  nums : List Int
deriving DecidableEq, Repr

/-- `sklearn.utils.resample(data, replace=False, n_samples=n, random_state=42)`:
raises `ValueError` when asked for more samples than the data holds
(`max_n_samples > n_samples` with `replace=False`), otherwise returns `n`
rows drawn without replacement.  The seeded shuffle is modelled as taking the
first `n` rows; none of the claims depend on which rows are drawn. -/
def resample_noreplace (l : List LRec) (n : Nat) : Except String (List LRec) :=
  if l.length < n then
    Except.error "ValueError: cannot sample more than population when replace is False"
  else
    Except.ok (l.take n)

/-- Lines 82-89 of `src/data/dataset.py`: split the batch by label value,
downsample class 0 to the size of class 1 without replacement, and
concatenate with class 1. -/
def balance_classes (data : List LRec) : Except String (List LRec) :=
  let data_class_0 := data.filter (fun r => r.label == 0)
  let data_class_1 := data.filter (fun r => r.label == 1)
  match resample_noreplace data_class_0 data_class_1.length with
  | Except.error e => Except.error e
  | Except.ok data_majority_downsampled =>
      Except.ok (data_majority_downsampled ++ data_class_1)

/-- From `src/data/dataset.py`, `build_features_and_label` with `ncols`
configured categorical columns: balance the classes, then pass numerical
columns through and one-hot encode the categorical columns with a freshly
fitted encoder.  Returns the feature rows (numerical passthrough followed by
the one-hot block), the target column, and the fitted encoder. -/
def build_features_and_label (data : List LRec) (ncols : Nat) :
    Except String (List (List Int) × List Nat × List (List String)) :=
  match balance_classes data with
  | Except.error e => Except.error e
  | Except.ok balanced =>
      match ohe_fit_transform (balanced.map (fun r => r.cats)) ncols with
      | Except.error e => Except.error e
      | Except.ok p =>
          Except.ok
            ((balanced.zip p.2).map
              (fun rq => rq.1.nums ++ rq.2.map (fun b => (b : Int))),
             balanced.map (fun r => r.label),
             p.1)

/-!
### Train/inference feature derivation for a single record

`RawRecord` is one input record after parsing (`"Fecha-I"` plus the raw
contextual columns); `DerivedRow` holds the five derived columns that
`load_data` (lines 42-47) and `InferenceSession.preprocess` (lines 55-60)
both add.  Feature configuration is modelled by selector functions that read
a configured column off the record and its derived columns, as
`data[numerical_feats]` / `data[categorical_feats]` do by column name.
-/

structure RawRecord where
  fecha_i : Timestamp
  ori_i : String
  des_i : String
  emp_i : String
  tipovuelo : String
  conc_flights : Int
deriving Repr

structure DerivedRow where
  is_high_season : Nat
  day_phase : Option String
  month_i : String
  day_i : String
  day_number_i : Nat
deriving DecidableEq, Repr

/-- The derived columns as computed by `load_data` lines 42-47:
`is_high_season`, then `day_phase`, then `Month-I`, `Day-I`, `Day-Number-I`
from `get_day_data`. -/
def load_data_derive (r : RawRecord) : DerivedRow :=
  let hs := is_high_season r.fecha_i
  let ph := get_day_phase r.fecha_i
  let dd := get_day_data r.fecha_i
  ⟨hs, ph, dd.2.1, dd.1, dd.2.2⟩

/-- The derived columns as computed by `InferenceSession.preprocess` lines
55-60: `day_phase`, then `is_high_season`, then the same three `get_day_data`
columns. -/
def preprocess_derive (r : RawRecord) : DerivedRow :=
  let ph := get_day_phase r.fecha_i
  let hs := is_high_season r.fecha_i
  let dd := get_day_data r.fecha_i
  ⟨hs, ph, dd.2.1, dd.1, dd.2.2⟩

/-- Training-path features of a batch of size 1 (class balancing bypassed,
concurrency excluded): derive the columns as `load_data` does, read the
configured numerical and categorical values, fit the encoder on this single
record and one-hot encode (`build_features_and_label` lines 91-102).
Returns (numerical values, one-hot block, fitted encoder). -/
def train_features_single (r : RawRecord)
    (numerical_feats : List (RawRecord → DerivedRow → Int))
    (categorical_feats : List (RawRecord → DerivedRow → String)) :
    List Int × List Nat × List (List String) :=
  let d := load_data_derive r
  let catVals := categorical_feats.map (fun f => f r d)
  let encoder := ohe_fit [catVals] categorical_feats.length
  (numerical_feats.map (fun f => f r d), ohe_transform encoder catVals, encoder)

/-- Inference-path features of the same record
(`InferenceSession.preprocess`): derive the columns, read the configured
values, and transform the categorical values with the already fitted
encoder (never refitting). -/
def infer_features (encoder : List (List String)) (r : RawRecord)
    (numerical_feats : List (RawRecord → DerivedRow → Int))
    (categorical_feats : List (RawRecord → DerivedRow → String)) :
    List Int × List Nat :=
  let d := preprocess_derive r
  let catVals := categorical_feats.map (fun f => f r d)
  (numerical_feats.map (fun f => f r d), ohe_transform encoder catVals)

/-!
### In-place mutation of the caller's DataFrame by `preprocess`

The single-row DataFrame handed to `InferenceSession.preprocess` is modelled
as a map from column name to value.  Lines 55-61 mutate the caller's object:
five derived columns are assigned and `"Fecha-I"` is deleted; the subsequent
`pd.concat` result is a fresh object bound to the local name only.
-/

inductive PdVal where
  | vStr : String → PdVal
  | vNat : Nat → PdVal
  | vInt : Int → PdVal
  | vDt : Timestamp → PdVal
  | vPhase : Option String → PdVal
deriving DecidableEq, Repr

def PdRow : Type := String → Option PdVal

/-- Column assignment `row[k] = v`. -/
def setCol (r : PdRow) (k : String) (v : PdVal) : PdRow :=
  fun k2 => if k2 = k then some v else r k2

/-- Column deletion `del row[k]`. -/
def delCol (r : PdRow) (k : String) : PdRow :=
  fun k2 => if k2 = k then none else r k2

/-- The effect of `InferenceSession.preprocess` lines 55-61 on the caller's
DataFrame object: requires the `"Fecha-I"` column (a `KeyError`, modelled as
`none`, otherwise), assigns `day_phase`, `is_high_season`, `Month-I`,
`Day-I`, `Day-Number-I` in source order, then deletes `"Fecha-I"`. -/
def preprocess_mutation (r : PdRow) : Option PdRow :=
  match r "Fecha-I" with
  | some (PdVal.vDt t) =>
      some (delCol
        (setCol
          (setCol
            (setCol
              (setCol
                (setCol r "day_phase" (PdVal.vPhase (get_day_phase t)))
                "is_high_season" (PdVal.vNat (is_high_season t)))
              "Month-I" (PdVal.vStr (get_day_data t).2.1))
            "Day-I" (PdVal.vStr (get_day_data t).1))
          "Day-Number-I" (PdVal.vNat (get_day_data t).2.2))
        "Fecha-I")
  | _ => none

/-! ## Helper lemmas -/

theorem dayOfWeek_lt_seven (y m d : Nat) : dayOfWeek y m d < 7 := by
  unfold dayOfWeek
  have h1 : 0 ≤ (daysFromCivil y m d + 3) % 7 := Int.emod_nonneg _ (by norm_num)
  have h2 : (daysFromCivil y m d + 3) % 7 < 7 := Int.emod_lt_of_pos _ (by norm_num)
  omega

theorem fit_column_mem (l : List String) (v : String) :
    v ∈ fit_column l ↔ v ∈ l := by
  unfold fit_column
  rw [List.mem_insertionSort, List.mem_dedup]

theorem dtKey_lower_le (t : Timestamp) (M D : Nat) (hD : D ≤ 31)
    (h4 : t.day ≤ 31) (h5 : t.hour < 24) (h6 : t.minute < 60) (h7 : t.second < 60) :
    dtKey ⟨t.year, M, D, 0, 0, 0⟩ ≤ dtKey t ↔
      M < t.month ∨ (M = t.month ∧ D ≤ t.day) := by
  simp only [dtKey]
  omega

theorem dtKey_le_upper (t : Timestamp) (M D : Nat) (hD : D ≤ 31)
    (h4 : t.day ≤ 31) (h5 : t.hour < 24) (h6 : t.minute < 60) (h7 : t.second < 60) :
    dtKey t ≤ dtKey ⟨t.year, M, D, 0, 0, 0⟩ ↔
      t.month < M ∨ (t.month = M ∧ (t.day < D ∨ (t.day = D ∧
        t.hour = 0 ∧ t.minute = 0 ∧ t.second = 0))) := by
  simp only [dtKey]
  omega

theorem season_group1 (m d hh mi s : Nat) (h3 : 1 ≤ d) (h4 : d ≤ 31) :
    (12 < m ∨ (12 = m ∧ 15 ≤ d)) ∧
      (m < 12 ∨ (m = 12 ∧ (d < 31 ∨ (d = 31 ∧ hh = 0 ∧ mi = 0 ∧ s = 0)))) ↔
    (m = 12 ∧ 15 ≤ d ∧ (d ≤ 30 ∨ (d = 31 ∧ hh = 0 ∧ mi = 0 ∧ s = 0))) := by
  omega

theorem season_group2 (m d hh mi s : Nat) (h1 : 1 ≤ m) (h3 : 1 ≤ d) :
    (1 < m ∨ (1 = m ∧ 1 ≤ d)) ∧
      (m < 3 ∨ (m = 3 ∧ (d < 3 ∨ (d = 3 ∧ hh = 0 ∧ mi = 0 ∧ s = 0)))) ↔
    (m = 1 ∨ m = 2 ∨ (m = 3 ∧ (d ≤ 2 ∨ (d = 3 ∧ hh = 0 ∧ mi = 0 ∧ s = 0)))) := by
  omega

theorem season_group3 (m d hh mi s : Nat) (h3 : 1 ≤ d) (h4 : d ≤ 31) :
    (7 < m ∨ (7 = m ∧ 15 ≤ d)) ∧
      (m < 7 ∨ (m = 7 ∧ (d < 31 ∨ (d = 31 ∧ hh = 0 ∧ mi = 0 ∧ s = 0)))) ↔
    (m = 7 ∧ 15 ≤ d ∧ (d ≤ 30 ∨ (d = 31 ∧ hh = 0 ∧ mi = 0 ∧ s = 0))) := by
  omega

theorem season_group4 (m d hh mi s : Nat) (h3 : 1 ≤ d) (h4 : d ≤ 31) :
    (9 < m ∨ (9 = m ∧ 11 ≤ d)) ∧
      (m < 9 ∨ (m = 9 ∧ (d < 30 ∨ (d = 30 ∧ hh = 0 ∧ mi = 0 ∧ s = 0)))) ↔
    (m = 9 ∧ 11 ≤ d ∧ (d ≤ 29 ∨ (d = 30 ∧ hh = 0 ∧ mi = 0 ∧ s = 0))) := by
  omega

theorem is_high_season_eq_one_iff (t : Timestamp) :
    is_high_season t = 1 ↔
      (dtKey ⟨t.year, 12, 15, 0, 0, 0⟩ ≤ dtKey t ∧ dtKey t ≤ dtKey ⟨t.year, 12, 31, 0, 0, 0⟩)
      ∨ (dtKey ⟨t.year, 1, 1, 0, 0, 0⟩ ≤ dtKey t ∧ dtKey t ≤ dtKey ⟨t.year, 3, 3, 0, 0, 0⟩)
      ∨ (dtKey ⟨t.year, 7, 15, 0, 0, 0⟩ ≤ dtKey t ∧ dtKey t ≤ dtKey ⟨t.year, 7, 31, 0, 0, 0⟩)
      ∨ (dtKey ⟨t.year, 9, 11, 0, 0, 0⟩ ≤ dtKey t ∧ dtKey t ≤ dtKey ⟨t.year, 9, 30, 0, 0, 0⟩) := by
  simp only [is_high_season]
  split
  next hc => exact iff_of_true rfl hc
  next hc => exact iff_of_false (by omega) hc

/-! ## Claims -/

/-- C3 (amended): `is_high_season` returns 1 iff the datetime lies within one
of the four ranges of its own year, where each range runs from midnight of
its first day (so the whole first day is in season) up to and including only
the exact midnight instant of its last day (any later time on Mar 3, Jul 31,
Sep 30 or Dec 31 is out of season). -/
theorem is_high_season_spec :
    ∀ t : Timestamp, 1 ≤ t.month → t.month ≤ 12 → 1 ≤ t.day → t.day ≤ 31 →
      t.hour < 24 → t.minute < 60 → t.second < 60 →
      (is_high_season t = 1 ↔
        (t.month = 12 ∧ 15 ≤ t.day ∧
          (t.day ≤ 30 ∨ (t.day = 31 ∧ t.hour = 0 ∧ t.minute = 0 ∧ t.second = 0))) ∨
        (t.month = 1 ∨ t.month = 2 ∨
          (t.month = 3 ∧ (t.day ≤ 2 ∨ (t.day = 3 ∧ t.hour = 0 ∧ t.minute = 0 ∧ t.second = 0)))) ∨
        (t.month = 7 ∧ 15 ≤ t.day ∧
          (t.day ≤ 30 ∨ (t.day = 31 ∧ t.hour = 0 ∧ t.minute = 0 ∧ t.second = 0))) ∨
        (t.month = 9 ∧ 11 ≤ t.day ∧
          (t.day ≤ 29 ∨ (t.day = 30 ∧ t.hour = 0 ∧ t.minute = 0 ∧ t.second = 0)))) := by
  intro t h1 h2 h3 h4 h5 h6 h7
  rw [is_high_season_eq_one_iff t,
    dtKey_lower_le t 12 15 (by omega) h4 h5 h6 h7,
    dtKey_le_upper t 12 31 (by omega) h4 h5 h6 h7,
    dtKey_lower_le t 1 1 (by omega) h4 h5 h6 h7,
    dtKey_le_upper t 3 3 (by omega) h4 h5 h6 h7,
    dtKey_lower_le t 7 15 (by omega) h4 h5 h6 h7,
    dtKey_le_upper t 7 31 (by omega) h4 h5 h6 h7,
    dtKey_lower_le t 9 11 (by omega) h4 h5 h6 h7,
    dtKey_le_upper t 9 30 (by omega) h4 h5 h6 h7]
  exact or_congr (season_group1 t.month t.day t.hour t.minute t.second h3 h4)
    (or_congr (season_group2 t.month t.day t.hour t.minute t.second h1 h3)
      (or_congr (season_group3 t.month t.day t.hour t.minute t.second h3 h4)
        (season_group4 t.month t.day t.hour t.minute t.second h3 h4)))

theorem is_high_season_spec_witness :
    is_high_season ⟨2021, 12, 20, 8, 30, 0⟩ = 1 :=
  (is_high_season_spec ⟨2021, 12, 20, 8, 30, 0⟩ (by decide) (by decide) (by decide)
    (by decide) (by decide) (by decide) (by decide)).mpr (by decide)

/-- C3 (counterexample to the claim as stated): 2021-12-31 00:00:01 falls on
the last calendar day of the Dec 15-31 range, yet `is_high_season` returns 0,
so a range's last calendar day is not fully in season. -/
theorem is_high_season_counterexample :
    (⟨2021, 12, 31, 0, 0, 1⟩ : Timestamp).month = 12 ∧
    15 ≤ (⟨2021, 12, 31, 0, 0, 1⟩ : Timestamp).day ∧
    (⟨2021, 12, 31, 0, 0, 1⟩ : Timestamp).day ≤ 31 ∧
    is_high_season ⟨2021, 12, 31, 0, 0, 1⟩ = 0 := by decide

/-- C4: `get_day_phase` returns `morning` iff the time of day is strictly
between 05:00:00 and 11:59:00, `evening` iff strictly between 12:00:00 and
18:59:00, `night` iff strictly between 19:00:00 and 23:59:00 or strictly
between 00:00:00 and 04:59:00, and no phase otherwise; in particular the
boundary instants 05:00:00, 12:00:00, 19:00:00 and 00:00:00 give no phase. -/
theorem day_phase_spec :
    (∀ t : Timestamp, t.hour < 24 → t.minute < 60 → t.second < 60 →
      ((get_day_phase t = some "morning" ↔
          (5 < t.hour ∨ (5 = t.hour ∧ (0 < t.minute ∨ (0 = t.minute ∧ 0 < t.second)))) ∧
          (t.hour < 11 ∨ (t.hour = 11 ∧ t.minute < 59))) ∧
        (get_day_phase t = some "evening" ↔
          (12 < t.hour ∨ (12 = t.hour ∧ (0 < t.minute ∨ (0 = t.minute ∧ 0 < t.second)))) ∧
          (t.hour < 18 ∨ (t.hour = 18 ∧ t.minute < 59))) ∧
        (get_day_phase t = some "night" ↔
          ((19 < t.hour ∨ (19 = t.hour ∧ (0 < t.minute ∨ (0 = t.minute ∧ 0 < t.second)))) ∧
            (t.hour < 23 ∨ (t.hour = 23 ∧ t.minute < 59))) ∨
          ((0 < t.hour ∨ (0 = t.hour ∧ (0 < t.minute ∨ (0 = t.minute ∧ 0 < t.second)))) ∧
            (t.hour < 4 ∨ (t.hour = 4 ∧ t.minute < 59)))) ∧
        (get_day_phase t = none ↔
          ¬(get_day_phase t = some "morning" ∨ get_day_phase t = some "evening" ∨
            get_day_phase t = some "night")))) ∧
    get_day_phase ⟨2021, 1, 1, 5, 0, 0⟩ = none ∧
    get_day_phase ⟨2021, 1, 1, 12, 0, 0⟩ = none ∧
    get_day_phase ⟨2021, 1, 1, 19, 0, 0⟩ = none ∧
    get_day_phase ⟨2021, 1, 1, 0, 0, 0⟩ = none := by
  refine ⟨fun t h1 h2 h3 => ?_, by decide, by decide, by decide, by decide⟩
  simp only [get_day_phase, timeKey]
  split_ifs with hA hB hC <;> simp +decide <;> omega

theorem day_phase_spec_witness :
    get_day_phase ⟨2021, 12, 20, 8, 30, 0⟩ = some "morning" :=
  ((day_phase_spec.1 ⟨2021, 12, 20, 8, 30, 0⟩ (by decide) (by decide) (by decide)).1).mpr
    (by decide)

/-- C7: `get_day_data` returns the weekday name drawn from the English full
names Monday..Sunday, the month as its numeric value, and the day of the
month as its numeric value; on the spec scenario 2021-12-20 it returns
("Monday", "12", 20). -/
theorem get_day_data_spec :
    (∀ t : Timestamp,
      (get_day_data t).1 ∈ day_names ∧
      (get_day_data t).2.1 = toString t.month ∧
      (get_day_data t).2.2 = t.day) ∧
    get_day_data ⟨2021, 12, 20, 8, 30, 0⟩ = ("Monday", "12", 20) := by
  constructor
  · intro t
    refine ⟨?_, rfl, rfl⟩
    have h := dayOfWeek_lt_seven t.year t.month t.day
    have hlen : dayOfWeek t.year t.month t.day < day_names.length := by
      simpa [day_names] using h
    show day_names.getD (dayOfWeek t.year t.month t.day) "" ∈ day_names
    rw [List.getD_eq_getElem _ _ hlen]
    exact List.getElem_mem hlen
  · decide

/-- C8: the delay is the signed difference (actual minus scheduled) in
minutes — sixty times the delay is the elapsed-seconds difference, the delay
is antisymmetric in its arguments and negative whenever the flight left
early — and `is_delayed` is 1 iff the delay strictly exceeds the threshold
(0 iff it does not). -/
theorem delay_label_spec :
    ∀ (fecha_i fecha_o : Timestamp) (threshold : ℚ),
      60 * flight_delay_minutes fecha_i fecha_o =
        ((toEpochSec fecha_o - toEpochSec fecha_i : Int) : ℚ) ∧
      flight_delay_minutes fecha_i fecha_o = -flight_delay_minutes fecha_o fecha_i ∧
      (toEpochSec fecha_o < toEpochSec fecha_i →
        flight_delay_minutes fecha_i fecha_o < 0) ∧
      (is_delayed fecha_i fecha_o threshold = 1 ↔
        threshold < flight_delay_minutes fecha_i fecha_o) ∧
      (is_delayed fecha_i fecha_o threshold = 0 ↔
        flight_delay_minutes fecha_i fecha_o ≤ threshold) := by
  intro fi fo thr
  refine ⟨?_, ?_, ?_, ?_, ?_⟩
  · rw [flight_delay_minutes]
    field_simp
  · rw [flight_delay_minutes, flight_delay_minutes]
    push_cast
    ring
  · intro h
    rw [flight_delay_minutes]
    apply div_neg_of_neg_of_pos _ (by norm_num)
    have : (toEpochSec fo - toEpochSec fi : Int) < 0 := by omega
    exact_mod_cast this
  · rw [is_delayed]
    split_ifs with h
    · exact iff_of_true rfl h
    · exact iff_of_false not_false h
  · rw [is_delayed]
    split_ifs with h
    · exact iff_of_false not_false (not_le.mpr h)
    · exact iff_of_true rfl (not_lt.mp h)

theorem delay_label_spec_witness :
    flight_delay_minutes ⟨2021, 1, 1, 10, 0, 0⟩ ⟨2021, 1, 1, 9, 30, 0⟩ < 0 :=
  (delay_label_spec ⟨2021, 1, 1, 10, 0, 0⟩ ⟨2021, 1, 1, 9, 30, 0⟩ 15).2.2.1 (by decide)

/-- C5: transforming with a fitted encoder column never fails on a category
value unseen during fitting: the output always has the width of the fitted
one-hot block, and for an unseen value it is the all-zero vector of that
width. -/
theorem unknown_category_spec :
    ∀ (train : List String) (v : String),
      (transform_column (fit_column train) v).length = (fit_column train).length ∧
      (v ∉ fit_column train →
        transform_column (fit_column train) v =
          List.replicate (fit_column train).length 0) := by
  intro train v
  constructor
  · simp [transform_column]
  · intro hv
    rw [List.eq_replicate_iff]
    refine ⟨by simp [transform_column], ?_⟩
    intro b hb
    simp only [transform_column, List.mem_map] at hb
    obtain ⟨c, hc, rfl⟩ := hb
    rw [if_neg]
    intro h
    exact hv (h ▸ hc)

theorem unknown_category_spec_witness :
    transform_column (fit_column ["a", "b"]) "z" =
      List.replicate (fit_column ["a", "b"]).length 0 :=
  (unknown_category_spec ["a", "b"] "z").2
    (fun h => absurd ((fit_column_mem ["a", "b"] "z").mp h) (by decide))

/-- C2: for a single record (batch of size 1, bypassing class balancing and
excluding the concurrency count), the training-path derivation
(`load_data` + `build_features_and_label`) and the inference-path derivation
(`InferenceSession.preprocess` with the encoder fitted by the training path)
produce identical numerical and categorical feature values. -/
theorem train_inference_parity (r : RawRecord)
    (numerical_feats : List (RawRecord → DerivedRow → Int))
    (categorical_feats : List (RawRecord → DerivedRow → String)) :
    infer_features (train_features_single r numerical_feats categorical_feats).2.2
        r numerical_feats categorical_feats =
      ((train_features_single r numerical_feats categorical_feats).1,
        (train_features_single r numerical_feats categorical_feats).2.1) := rfl

/-- C6 (amended): `build_features_and_label` fails with an error whenever
either class is empty — at the `resample` call when class 0 is empty and
class 1 is not, and at encoder fitting (zero samples) when class 1 is empty;
the balancing step itself succeeds in the latter case, and no exception named
`InsufficientClassData` exists in the code. -/
theorem empty_class_error (data : List LRec) (ncols : Nat)
    (h : data.filter (fun r => r.label == 0) = [] ∨
        data.filter (fun r => r.label == 1) = []) :
    (build_features_and_label data ncols).isOk = false := by
  rcases h with h0 | h1
  · by_cases h1 : data.filter (fun r => r.label == 1) = []
    · simp [build_features_and_label, balance_classes, resample_noreplace, h0, h1,
        ohe_fit_transform, Except.isOk, Except.toBool]
    · have hlen : 0 < (data.filter (fun r => r.label == 1)).length :=
        List.length_pos.mpr h1
      simp [build_features_and_label, balance_classes, resample_noreplace, h0, hlen,
        Except.isOk, Except.toBool]
  · simp [build_features_and_label, balance_classes, resample_noreplace, h1,
      ohe_fit_transform, Except.isOk, Except.toBool]

theorem empty_class_error_witness :
    (build_features_and_label [⟨1, [], []⟩] 0).isOk = false :=
  empty_class_error [⟨1, [], []⟩] 0 (Or.inl (by decide))

/-- C6 (counterexample to the claim as stated): on a batch whose single
record has label 0 — so the class-1 subset is empty — the class-balancing
step (lines 82-89) completes without error, returning an empty batch; the
failure the claim attributes to the balancing step only occurs later, at
encoder fitting. -/
theorem balance_classes_ok_on_empty_class1 :
    balance_classes [⟨0, [], []⟩] = Except.ok [] := by rfl

/-- C10: whenever the class-1 subset is strictly larger than the non-empty
class-0 subset, the balancing step (sampling class 0 without replacement to
the size of class 1) raises, so `build_features_and_label` produces no
balanced output. -/
theorem downsample_error_when_class1_larger (data : List LRec) (ncols : Nat)
    (_h0 : data.filter (fun r => r.label == 0) ≠ [])
    (hlt : (data.filter (fun r => r.label == 0)).length <
        (data.filter (fun r => r.label == 1)).length) :
    (balance_classes data).isOk = false ∧
    (build_features_and_label data ncols).isOk = false := by
  constructor
  · simp [balance_classes, resample_noreplace, hlt, Except.isOk, Except.toBool]
  · simp [build_features_and_label, balance_classes, resample_noreplace, hlt,
      Except.isOk, Except.toBool]

theorem downsample_error_when_class1_larger_witness :
    (balance_classes [⟨0, [], []⟩, ⟨1, [], []⟩, ⟨1, [], []⟩]).isOk = false ∧
    (build_features_and_label [⟨0, [], []⟩, ⟨1, [], []⟩, ⟨1, [], []⟩] 0).isOk = false :=
  downsample_error_when_class1_larger [⟨0, [], []⟩, ⟨1, [], []⟩, ⟨1, [], []⟩] 0
    (by decide) (by decide)

/-- C9: `InferenceSession.preprocess` mutates its input DataFrame in place:
after the call the caller's record object carries the five derived columns
and no longer has a `"Fecha-I"` column, so it differs from its pre-call
state, and a second `preprocess` on the same object fails to find
`"Fecha-I"`. -/
theorem preprocess_mutation_spec (r : PdRow) (t : Timestamp)
    (h : r "Fecha-I" = some (PdVal.vDt t)) :
    ∃ r2, preprocess_mutation r = some r2 ∧
      r2 "Fecha-I" = none ∧
      r2 "day_phase" = some (PdVal.vPhase (get_day_phase t)) ∧
      r2 "is_high_season" = some (PdVal.vNat (is_high_season t)) ∧
      r2 "Month-I" = some (PdVal.vStr (get_day_data t).2.1) ∧
      r2 "Day-I" = some (PdVal.vStr (get_day_data t).1) ∧
      r2 "Day-Number-I" = some (PdVal.vNat (get_day_data t).2.2) ∧
      r2 ≠ r ∧
      preprocess_mutation r2 = none := by
  refine ⟨delCol
      (setCol
        (setCol
          (setCol
            (setCol
              (setCol r "day_phase" (PdVal.vPhase (get_day_phase t)))
              "is_high_season" (PdVal.vNat (is_high_season t)))
            "Month-I" (PdVal.vStr (get_day_data t).2.1))
          "Day-I" (PdVal.vStr (get_day_data t).1))
        "Day-Number-I" (PdVal.vNat (get_day_data t).2.2))
      "Fecha-I", ?_, ?_, ?_, ?_, ?_, ?_, ?_, ?_, ?_⟩
  · simp only [preprocess_mutation, h]
  · simp +decide [delCol, setCol]
  · simp +decide [delCol, setCol]
  · simp +decide [delCol, setCol]
  · simp +decide [delCol, setCol]
  · simp +decide [delCol, setCol]
  · simp +decide [delCol, setCol]
  · intro heq
    have h2 := congrFun heq "Fecha-I"
    simp +decide [delCol, setCol, h] at h2
  · simp +decide [preprocess_mutation, delCol, setCol]

theorem preprocess_mutation_spec_witness :
    ∃ r2, preprocess_mutation (fun k =>
        if k = "Fecha-I" then some (PdVal.vDt ⟨2021, 12, 20, 8, 30, 0⟩) else none) =
          some r2 ∧
      r2 "Fecha-I" = none ∧
      r2 "day_phase" = some (PdVal.vPhase (get_day_phase ⟨2021, 12, 20, 8, 30, 0⟩)) ∧
      r2 "is_high_season" = some (PdVal.vNat (is_high_season ⟨2021, 12, 20, 8, 30, 0⟩)) ∧
      r2 "Month-I" = some (PdVal.vStr (get_day_data ⟨2021, 12, 20, 8, 30, 0⟩).2.1) ∧
      r2 "Day-I" = some (PdVal.vStr (get_day_data ⟨2021, 12, 20, 8, 30, 0⟩).1) ∧
      r2 "Day-Number-I" = some (PdVal.vNat (get_day_data ⟨2021, 12, 20, 8, 30, 0⟩).2.2) ∧
      r2 ≠ (fun k =>
        if k = "Fecha-I" then some (PdVal.vDt ⟨2021, 12, 20, 8, 30, 0⟩) else none) ∧
      preprocess_mutation r2 = none :=
  preprocess_mutation_spec
    (fun k => if k = "Fecha-I" then some (PdVal.vDt ⟨2021, 12, 20, 8, 30, 0⟩) else none)
    ⟨2021, 12, 20, 8, 30, 0⟩ rfl

/-! ## Concurrency counter: correctness of the two-pointer scan -/

theorem cBelow_succ (ts : List Int) (w i j : Nat) :
    cBelow ts w i (j + 1) =
      cBelow ts w i j +
        (if (ts.getD i 0 - ts.getD j 0).natAbs ≤ w * 3600 then 1 else 0) := by
  unfold cBelow
  rw [Finset.range_succ, Finset.filter_insert]
  split
  · rw [Finset.card_insert_of_not_mem (by simp)]
  · rw [Nat.add_zero]

theorem cBelow_stable (ts : List Int) (w i j : Nat) (hj : j ≤ ts.length)
    (h : ∀ k, j ≤ k → k < ts.length →
      ¬((ts.getD i 0 - ts.getD k 0).natAbs ≤ w * 3600)) :
    cBelow ts w i ts.length = cBelow ts w i j := by
  unfold cBelow
  congr 1
  apply Finset.ext
  intro k
  simp only [Finset.mem_filter, Finset.mem_range]
  constructor
  · rintro ⟨hk, hP⟩
    refine ⟨?_, hP⟩
    by_contra hnlt
    exact h k (by omega) hk hP
  · rintro ⟨hk, hP⟩
    exact ⟨by omega, hP⟩

/-- Invariant of the inner scan on a sorted timeline: provided every index
below `lo` lies strictly more than the window before index `i`, and `cnt`
counts the in-window indices below `j`, the scan returns the full reference
count for `i`, with a final `starting_index` that is at most `i` and still
strictly out of window below. -/
theorem scanFrom_spec (ts : List Int) (w : Nat)
    (hmono : ∀ a b : Nat, a ≤ b → b < ts.length → ts.getD a 0 ≤ ts.getD b 0)
    (i j lo cnt : Nat)
    (hi : i < ts.length) (hj : j ≤ ts.length) (hloi : lo ≤ i)
    (hlo : ∀ k, k < lo → (w * 3600 : Int) < ts.getD i 0 - ts.getD k 0)
    (hcnt : cnt = cBelow ts w i j) :
    (scanFrom ts w i j lo cnt).1 = cBelow ts w i ts.length ∧
    (scanFrom ts w i j lo cnt).2 ≤ i ∧
    ∀ k, k < (scanFrom ts w i j lo cnt).2 →
      (w * 3600 : Int) < ts.getD i 0 - ts.getD k 0 := by
  unfold scanFrom
  split
  case isTrue hjlt =>
    split
    case isTrue hin =>
      exact scanFrom_spec ts w hmono i (j + 1) lo (cnt + 1) hi (by omega) hloi hlo
        (by rw [cBelow_succ, if_pos hin]; omega)
    case isFalse hnin =>
      split
      case isTrue hij =>
        refine ⟨?_, hloi, hlo⟩
        show cnt = cBelow ts w i ts.length
        rw [cBelow_stable ts w i j (by omega) ?_, hcnt]
        intro k hk1 hk2 hP
        have h1 := hmono i j (by omega) hjlt
        have h2 := hmono j k hk1 hk2
        omega
      case isFalse hij =>
        refine scanFrom_spec ts w hmono i (j + 1) j cnt hi (by omega) (by omega) ?_
          (by rw [cBelow_succ, if_neg hnin]; omega)
        intro k hk
        have h1 := hmono k j (by omega) hjlt
        have h2 := hmono j i (by omega) hi
        omega
  case isFalse hjge =>
    refine ⟨?_, hloi, hlo⟩
    show cnt = cBelow ts w i ts.length
    have hje : j = ts.length := by omega
    rw [hcnt, hje]
termination_by ts.length - j

/-- The outer loop, from any reachable state `(i, lo)`, emits exactly the
reference count for every remaining index of the sorted timeline. -/
theorem aggLoop_spec (ts : List Int) (w : Nat)
    (hmono : ∀ a b : Nat, a ≤ b → b < ts.length → ts.getD a 0 ≤ ts.getD b 0)
    (i lo : Nat) (hloi : lo ≤ i)
    (hlo : ∀ k, k < lo → ∀ i2, i ≤ i2 → i2 < ts.length →
      (w * 3600 : Int) < ts.getD i2 0 - ts.getD k 0) :
    aggLoop ts w i lo =
      ((List.range ts.length).drop i).map (fun m => cBelow ts w m ts.length) := by
  unfold aggLoop
  split
  case isTrue hi =>
    obtain ⟨h1, h2, h3⟩ := scanFrom_spec ts w hmono i lo lo 0 hi (by omega) hloi
      (fun k hk => hlo k hk i le_rfl hi)
      (by
        unfold cBelow
        symm
        rw [Finset.card_eq_zero, Finset.filter_eq_empty_iff]
        intro k hk
        simp only [Finset.mem_range] at hk
        have := hlo k hk i le_rfl hi
        omega)
    rw [List.drop_eq_getElem_cons (by simpa using hi), List.map_cons,
      List.getElem_range]
    dsimp only
    rw [h1, aggLoop_spec ts w hmono (i + 1) (scanFrom ts w i lo lo 0).2 (by omega) ?_]
    intro k hk i2 hi2 hi2n
    have hx := h3 k hk
    have hy := hmono i i2 (by omega) hi2n
    omega
  case isFalse hni =>
    rw [List.drop_eq_nil_of_le (by simpa using Nat.le_of_not_lt hni)]
    rfl
termination_by ts.length - i

/-- C1: for every batch of timestamps and every window of `w` hours,
`aggregate_concurrent_flights_number` returns a count sequence of the same
length as the input, aligned to the batch sorted by timestamp, whose `i`-th
entry equals the number of indices `j` (including `i` itself) whose absolute
time difference from the `i`-th sorted timestamp is at most `w * 3600`
seconds (inclusive test). -/
theorem aggregate_concurrent_flights_spec (ts : List Int) (w : Nat) :
    (aggregate_concurrent_flights_number ts w).length = ts.length ∧
    ∀ i, i < ts.length →
      (aggregate_concurrent_flights_number ts w).getD i 0 =
        ((Finset.range ts.length).filter
          (fun j => ((List.insertionSort (· ≤ ·) ts).getD i 0 -
            (List.insertionSort (· ≤ ·) ts).getD j 0).natAbs ≤ w * 3600)).card := by
  have hlen : (List.insertionSort (· ≤ ·) ts).length = ts.length :=
    List.length_insertionSort _ ts
  have hsorted : (List.insertionSort (· ≤ ·) ts).Sorted (· ≤ ·) :=
    List.sorted_insertionSort _ ts
  have hmono : ∀ a b : Nat, a ≤ b → b < (List.insertionSort (· ≤ ·) ts).length →
      (List.insertionSort (· ≤ ·) ts).getD a 0 ≤
        (List.insertionSort (· ≤ ·) ts).getD b 0 := by
    intro a b hab hb
    rcases Nat.eq_or_lt_of_le hab with heq | hlt
    · rw [heq]
    · rw [List.getD_eq_getElem _ _ (by omega), List.getD_eq_getElem _ _ hb]
      exact List.pairwise_iff_getElem.mp hsorted a b (by omega) hb hlt
  have hagg : aggregate_concurrent_flights_number ts w =
      (List.range (List.insertionSort (· ≤ ·) ts).length).map
        (fun m => cBelow (List.insertionSort (· ≤ ·) ts) w m
          (List.insertionSort (· ≤ ·) ts).length) := by
    unfold aggregate_concurrent_flights_number
    rw [aggLoop_spec _ _ hmono 0 0 le_rfl (by omega), List.drop_zero]
  constructor
  · rw [hagg]
    simp [hlen]
  · intro i hi
    rw [hagg, List.getD_eq_getElem _ _ (by simpa [hlen] using hi)]
    rw [List.getElem_map, List.getElem_range]
    unfold cBelow
    rw [hlen]

theorem aggregate_concurrent_flights_spec_witness :
    1 < 3 ∧
    (aggregate_concurrent_flights_number ([28800, 30600, 36000] : List Int) 1).getD 1 0 =
      ((Finset.range 3).filter
        (fun j => ((List.insertionSort (· ≤ ·) ([28800, 30600, 36000] : List Int)).getD 1 0 -
          (List.insertionSort (· ≤ ·) ([28800, 30600, 36000] : List Int)).getD j 0).natAbs ≤
            1 * 3600)).card :=
  ⟨by decide,
    (aggregate_concurrent_flights_spec ([28800, 30600, 36000] : List Int) 1).2 1 (by decide)⟩
